import Mathlib

/-
Verification of the Risk Manager V6 anchor store, rollover engine and MLL
evaluator. Shallow embedding of the Python source:
  src/risk_app/stores/anchors_store.py   (AccountAnchors, AnchorsStore)
  src/risk_app/services/rollover_service.py (RolloverService)
  src/risk_app/engines/mll.py            (MLLEngine)
Floating-point currency values are modelled as rationals; Python `Optional`
is `Option`; the persisted-document write performed by `_save_anchors` is
modelled by a `saves` counter on the store (each call to a mutating store
method increments it by one, exactly as each such method calls
`_save_anchors` unconditionally).  Dates are opaque strings, and the
wall-clock date that Python computes inside `perform_rollover` is passed
in as the `today` parameter, since time is an external input.
-/

/-- Per-account anchor record, mirroring `AccountAnchors.__init__`
(anchors_store.py lines 15-21): starting balance and EOD high default to
0.0, intraday high and last rollover date to None, lockout to False. -/
structure AccountAnchors where
  account_id : Int
  starting_balance : ℚ
  eod_high_anchor : ℚ
  intraday_high_today : Option ℚ
  last_rollover_date : Option String
  locked_out : Bool
deriving DecidableEq, Repr

/-- A freshly constructed record, `AccountAnchors(account_id)` in Python. -/
def AccountAnchors.fresh (account_id : Int) : AccountAnchors :=
  { account_id := account_id
    starting_balance := 0
    eod_high_anchor := 0
    intraday_high_today := none
    last_rollover_date := none
    locked_out := false }

/-- `AccountAnchors.set_starting_balance` (lines 23-29): writes `balance`
only when the stored starting balance is exactly 0.0; otherwise no-op.
No validation of `balance` is performed and no exception is raised. -/
def AccountAnchors.set_starting_balance (a : AccountAnchors) (balance : ℚ) :
    AccountAnchors :=
  if a.starting_balance = 0 then { a with starting_balance := balance } else a

/-- `AccountAnchors.update_eod_high_anchor` (lines 31-39): writes `balance`
only when it strictly exceeds the stored anchor. -/
def AccountAnchors.update_eod_high_anchor (a : AccountAnchors) (balance : ℚ) :
    AccountAnchors :=
  if balance > a.eod_high_anchor then { a with eod_high_anchor := balance } else a

/-- `AccountAnchors.update_intraday_high` (lines 41-50): writes `equity`
when the intraday high is absent or smaller. -/
def AccountAnchors.update_intraday_high (a : AccountAnchors) (equity : ℚ) :
    AccountAnchors :=
  match a.intraday_high_today with
  | none => { a with intraday_high_today := some equity }
  | some h =>
      if equity > h then { a with intraday_high_today := some equity } else a

/-- `AccountAnchors.reset_intraday_high` (lines 52-55). -/
def AccountAnchors.reset_intraday_high (a : AccountAnchors) : AccountAnchors :=
  { a with intraday_high_today := none }

/-- `AccountAnchors.set_locked_out` (lines 57-62). -/
def AccountAnchors.set_locked_out (a : AccountAnchors) (locked : Bool) :
    AccountAnchors :=
  { a with locked_out := locked }

/-- Python truthiness coalescing `x or y` applied to an `Optional[float]`
`x` and a float `y`: both `None` and `0.0` are falsy, so the result is `y`
when `x` is `None` *or* `Some 0.0`, and the contained value otherwise.
This is the exact semantics of `anchors.intraday_high_today or
current_equity` in `AnchorsStore.perform_rollover` (line 190). -/
def pyOrFloat (x : Option ℚ) (y : ℚ) : ℚ :=
  match x with
  | none => y
  | some v => if v = 0 then y else v

/-- The per-record rollover transition performed by
`AnchorsStore.perform_rollover` (lines 184-209) on the account's record:
fold the (truthy) intraday high into the EOD anchor, reset the intraday
high, clear the lockout, and stamp the rollover date. -/
def AccountAnchors.perform_rollover (a : AccountAnchors) (today : String)
    (current_equity : ℚ) : AccountAnchors :=
  let intraday_high := pyOrFloat a.intraday_high_today current_equity
  let a1 := a.update_eod_high_anchor intraday_high
  let a2 := a1.reset_intraday_high
  let a3 := a2.set_locked_out false
  { a3 with last_rollover_date := some today }

/-- Association list lookup for the store's account map. -/
def lookupRec : List (Int × AccountAnchors) → Int → Option AccountAnchors
  | [], _ => none
  | (k, v) :: rest, id => if k = id then some v else lookupRec rest id

/-- Association list update-or-insert for the store's account map. -/
def setRec : List (Int × AccountAnchors) → Int → AccountAnchors →
    List (Int × AccountAnchors)
  | [], id, a => [(id, a)]
  | (k, v) :: rest, id, a =>
      if k = id then (k, a) :: rest else (k, v) :: setRec rest id a

/-- The anchors store (`AnchorsStore`): the in-memory map of records plus
a counter of how many times `_save_anchors` has rewritten the persisted
document.  Every mutating store method calls `_save_anchors`
unconditionally, so every such method increments `saves` by one. -/
structure AnchorsStore where
  anchors : List (Int × AccountAnchors)
  saves : Nat
deriving DecidableEq, Repr

/-- `AnchorsStore.get_anchors` (lines 127-132) as a pure read: the stored
record, or a fresh zero-valued one when the account is unseen. -/
def AnchorsStore.get_record (s : AnchorsStore) (id : Int) : AccountAnchors :=
  (lookupRec s.anchors id).getD (AccountAnchors.fresh id)

/-- The shared shape of every mutating store method: `get_anchors`
(creating the record if missing), mutate it, then `_save_anchors`. -/
def AnchorsStore.modify (s : AnchorsStore) (id : Int)
    (f : AccountAnchors → AccountAnchors) : AnchorsStore :=
  { anchors := setRec s.anchors id (f (s.get_record id))
    saves := s.saves + 1 }

/-- `AnchorsStore.set_starting_balance` (lines 134-138). -/
def AnchorsStore.set_starting_balance (s : AnchorsStore) (id : Int)
    (balance : ℚ) : AnchorsStore :=
  s.modify id (fun a => a.set_starting_balance balance)

/-- `AnchorsStore.update_eod_high_anchor` (lines 140-144): mutate, then
save — the save happens whether or not the anchor changed. -/
def AnchorsStore.update_eod_high_anchor (s : AnchorsStore) (id : Int)
    (balance : ℚ) : AnchorsStore :=
  s.modify id (fun a => a.update_eod_high_anchor balance)

/-- `AnchorsStore.perform_rollover` (lines 184-209) at the store level. -/
def AnchorsStore.perform_rollover (s : AnchorsStore) (id : Int)
    (today : String) (current_equity : ℚ) : AnchorsStore :=
  s.modify id (fun a => a.perform_rollover today current_equity)

/-- `RolloverService.initialize_account_anchors`
(rollover_service.py lines 78-95): set the starting balance (set-once
rule applies inside the store), then raise the EOD high anchor to the
current balance. -/
def init_account_anchors (s : AnchorsStore) (id : Int)
    (current_balance starting_balance : ℚ) : AnchorsStore :=
  (s.set_starting_balance id starting_balance).update_eod_high_anchor id
    current_balance

/-- `MLLStatus` enum (mll.py lines 9-13). -/
inductive MLLStatus where
  | ALIVE
  | BLOWN
  | UNKNOWN
deriving DecidableEq, Repr

/-- `MLLResult` (mll.py lines 15-42). -/
structure MLLResult where
  account_id : Int
  plan_size : String
  starting_balance : ℚ
  eod_high_anchor : ℚ
  base_mll : ℚ
  current_equity : ℚ
  floor : Option ℚ
  used : Option ℚ
  remaining : Option ℚ
  pct_used : Option ℚ
  status : MLLStatus
  reason : String
deriving DecidableEq, Repr

/-- `MLLEngine.get_plan_size` (mll.py lines 74-81). -/
def get_plan_size (starting_balance : ℚ) : String :=
  if starting_balance ≤ 50000 then "50K"
  else if starting_balance ≤ 100000 then "100K"
  else "150K"

/-- `MLLEngine.get_base_mll` (mll.py lines 83-91), with the
`MLL_LIMITS` table {50000: 2000, 100000: 3000, 150000: 4500} inlined. -/
def get_base_mll (starting_balance : ℚ) : ℚ :=
  if starting_balance ≤ 50000 then 2000
  else if starting_balance ≤ 100000 then 3000
  else 4500

/-- `MLLEngine.calculate_mll` (mll.py lines 93-190).  The function is
total: the `eod_high_anchor <= 0` case returns the UNKNOWN result rather
than raising (the `except` clause can only fire on logging failures,
which are outside the model). -/
def calculate_mll (account_id : Int) (starting_balance eod_high_anchor
    current_equity : ℚ) : MLLResult :=
  let plan_size := get_plan_size starting_balance
  let base_mll := get_base_mll starting_balance
  if eod_high_anchor ≤ 0 then
    { account_id := account_id
      plan_size := plan_size
      starting_balance := starting_balance
      eod_high_anchor := eod_high_anchor
      base_mll := base_mll
      current_equity := current_equity
      floor := none
      used := none
      remaining := none
      pct_used := none
      status := MLLStatus.UNKNOWN
      reason := "missing_anchor" }
  else
    let raw_floor := eod_high_anchor - base_mll
    let floor := min starting_balance raw_floor
    let used := eod_high_anchor - current_equity
    let remaining := base_mll - used
    let pct_used := if base_mll > 0 then used / base_mll * 100 else 0
    let blown : Bool := current_equity ≤ floor + 1 / 100
    { account_id := account_id
      plan_size := plan_size
      starting_balance := starting_balance
      eod_high_anchor := eod_high_anchor
      base_mll := base_mll
      current_equity := current_equity
      floor := some floor
      used := some used
      remaining := some remaining
      pct_used := some pct_used
      status := if blown then MLLStatus.BLOWN else MLLStatus.ALIVE
      reason := if blown then "mll_blown" else "within_limits" }

/-- A finite sequence of `update_eod_high_anchor` calls applied to a
record, in order. -/
def apply_anchor_updates (a : AccountAnchors) (cs : List ℚ) : AccountAnchors :=
  cs.foldl AccountAnchors.update_eod_high_anchor a

/-- `update_eod_high_anchor` writes exactly the maximum of the stored
anchor and the candidate. -/
lemma update_eod_high_anchor_eq_max (a : AccountAnchors) (b : ℚ) :
    a.update_eod_high_anchor b =
      { a with eod_high_anchor := max a.eod_high_anchor b } := by
  unfold AccountAnchors.update_eod_high_anchor
  split
  · next h => rw [max_eq_right (le_of_lt h)]
  · next h => rw [max_eq_left (not_lt.mp h)]

/-- Characterization of the per-record rollover transition: fold the
truthy intraday high into the anchor by max, clear the intraday high and
the lockout, stamp the date. -/
lemma perform_rollover_eq (a : AccountAnchors) (d : String) (e : ℚ) :
    a.perform_rollover d e =
      { a with
        eod_high_anchor :=
          max a.eod_high_anchor (pyOrFloat a.intraday_high_today e)
        intraday_high_today := none
        locked_out := false
        last_rollover_date := some d } := by
  simp only [AccountAnchors.perform_rollover, update_eod_high_anchor_eq_max,
    AccountAnchors.reset_intraday_high, AccountAnchors.set_locked_out]

/-- Looking up the key just written returns the written record. -/
lemma lookupRec_setRec_self (l : List (Int × AccountAnchors)) (id : Int)
    (a : AccountAnchors) : lookupRec (setRec l id a) id = some a := by
  induction l with
  | nil => simp [setRec, lookupRec]
  | cons p rest ih =>
    obtain ⟨k, v⟩ := p
    by_cases h : k = id
    · simp [setRec, lookupRec, h]
    · simp [setRec, lookupRec, h, ih]

/-- Reading back the record a mutating store method just updated yields
the mutated record. -/
lemma get_record_modify_self (s : AnchorsStore) (id : Int)
    (f : AccountAnchors → AccountAnchors) :
    (s.modify id f).get_record id = f (s.get_record id) := by
  simp [AnchorsStore.modify, AnchorsStore.get_record, lookupRec_setRec_self]

/-- A sequence of anchor updates changes only the anchor, folding `max`
over the candidates. -/
lemma apply_anchor_updates_eod (cs : List ℚ) (a : AccountAnchors) :
    apply_anchor_updates a cs =
      { a with eod_high_anchor := cs.foldl max a.eod_high_anchor } := by
  induction cs generalizing a with
  | nil => rfl
  | cons c rest ih =>
    show apply_anchor_updates (a.update_eod_high_anchor c) rest = _
    rw [ih, update_eod_high_anchor_eq_max]
    rfl

/-- Folding `max` over a list is invariant under permutation. -/
lemma foldl_max_perm (cs cs' : List ℚ) (h : cs.Perm cs') (b : ℚ) :
    cs.foldl max b = cs'.foldl max b := by
  induction h generalizing b with
  | nil => rfl
  | cons x _ ih => simp only [List.foldl_cons]; exact ih _
  | swap x y l =>
    simp only [List.foldl_cons]
    have : max (max b y) x = max (max b x) y := by
      rw [max_assoc, max_assoc, max_comm y x]
    rw [this]
  | trans _ _ ih1 ih2 => exact (ih1 b).trans (ih2 b)

/-- The fold transition exactly as the specification words it: the folded
high is the intraday high whenever it is *present* (even when it equals
0.0), and only falls back to the fallback equity when it is absent.
Stated from the spec's words (the `intradayHighToday ?? fallbackEquity`
null-coalescing reading) for comparison with the source's
`perform_rollover`. -/
def fold_claimed (a : AccountAnchors) (today : String)
    (fallback_equity : ℚ) : AccountAnchors :=
  let foldedHigh := a.intraday_high_today.getD fallback_equity
  { a with
    eod_high_anchor := max a.eod_high_anchor foldedHigh
    intraday_high_today := none
    locked_out := false
    last_rollover_date := some today }

/-- Claim C1, counterexample: on a record whose intraday high is present
and equal to 0.0, the code folds the fallback equity (Python `or` treats
0.0 as falsy), not the intraday value, so the code's transition differs
from the claimed transition at this input. -/
theorem claim_C1_counterexample :
    AccountAnchors.perform_rollover
        { AccountAnchors.fresh 1 with intraday_high_today := some 0 }
        "2025-01-02" 100 ≠
      fold_claimed
        { AccountAnchors.fresh 1 with intraday_high_today := some 0 }
        "2025-01-02" 100 := by
  intro h
  have h2 := congrArg AccountAnchors.eod_high_anchor h
  rw [perform_rollover_eq] at h2
  simp only [fold_claimed, pyOrFloat, AccountAnchors.fresh, Option.getD] at h2
  norm_num at h2

/-- Claim C1 (amended): `fold(accountId, today, fallbackEquity)` sets the
anchor to `max(previous, foldedHigh)`, clears the intraday high, clears
the lockout and stamps today's date — but `foldedHigh` is the intraday
high only when it is present *and nonzero*; when the intraday high is
absent or equals 0.0 the fallback equity is folded instead (Python
truthiness of `intraday_high_today or current_equity`). -/
theorem claim_C1_amended (a : AccountAnchors) (today : String) (e : ℚ) :
    a.perform_rollover today e =
      { a with
        eod_high_anchor :=
          max a.eod_high_anchor (pyOrFloat a.intraday_high_today e)
        intraday_high_today := none
        locked_out := false
        last_rollover_date := some today } :=
  perform_rollover_eq a today e

/-- Claim C2, counterexample: two folds on the same day with different
fallback equities both change the record — the second fold raises the
anchor from 100 to 200, so fold is not idempotent for arbitrary fallback
equity values. -/
theorem claim_C2_counterexample :
    ((AccountAnchors.fresh 1).perform_rollover "2025-01-02" 100).perform_rollover
        "2025-01-02" 200 ≠
      (AccountAnchors.fresh 1).perform_rollover "2025-01-02" 100 := by
  intro h
  have h2 := congrArg AccountAnchors.eod_high_anchor h
  simp only [perform_rollover_eq, AccountAnchors.fresh, pyOrFloat] at h2
  rw [max_eq_right (by norm_num : (0 : ℚ) ≤ 100)] at h2
  rw [max_eq_right (by norm_num : (100 : ℚ) ≤ 200)] at h2
  norm_num at h2

/-- Claim C2 (amended): a second fold on the same calendar day leaves the
record unchanged provided the second fallback equity does not exceed the
anchor produced by the first fold; otherwise only the anchor changes
(it rises to the second fallback equity).  Idempotence as originally
claimed — for arbitrary fallback equities — does not hold. -/
theorem claim_C2_amended (a : AccountAnchors) (d : String) (e1 e2 : ℚ)
    (h : e2 ≤ (a.perform_rollover d e1).eod_high_anchor) :
    (a.perform_rollover d e1).perform_rollover d e2 =
      a.perform_rollover d e1 := by
  rw [perform_rollover_eq a d e1] at h ⊢
  rw [perform_rollover_eq]
  simp only [pyOrFloat] at h ⊢
  rw [max_eq_left h]

/-- Witness for claim C2 (amended) at a concrete input: a fresh record,
first fold with fallback 100, second fold with fallback 50. -/
theorem claim_C2_witness :
    ((AccountAnchors.fresh 1).perform_rollover "2025-01-02" 100).perform_rollover
        "2025-01-02" 50 =
      (AccountAnchors.fresh 1).perform_rollover "2025-01-02" 100 :=
  claim_C2_amended (AccountAnchors.fresh 1) "2025-01-02" 100 50 (by
    rw [perform_rollover_eq]
    simp only [AccountAnchors.fresh, pyOrFloat]
    rw [max_eq_right (by norm_num : (0 : ℚ) ≤ 100)]
    norm_num)

/-- Claim C3: once an account's starting balance is a nonzero value, any
later `set_starting_balance` call (with any value) leaves it unchanged —
the first nonzero value written is retained. -/
theorem claim_C3 (s : AnchorsStore) (id : Int) (b : ℚ)
    (h : (s.get_record id).starting_balance ≠ 0) :
    ((s.set_starting_balance id b).get_record id).starting_balance =
      (s.get_record id).starting_balance := by
  rw [AnchorsStore.set_starting_balance, get_record_modify_self,
    AccountAnchors.set_starting_balance, if_neg h]

/-- Witness for claim C3 at a concrete input: a store holding a record
with starting balance 50000, asked to overwrite it with 60000. -/
theorem claim_C3_witness :
    (((AnchorsStore.mk
          [(1, { AccountAnchors.fresh 1 with starting_balance := 50000 })] 0
        ).set_starting_balance 1 60000).get_record 1).starting_balance =
      ((AnchorsStore.mk
          [(1, { AccountAnchors.fresh 1 with starting_balance := 50000 })] 0
        ).get_record 1).starting_balance :=
  claim_C3
    (AnchorsStore.mk
      [(1, { AccountAnchors.fresh 1 with starting_balance := 50000 })] 0)
    1 60000
    (by norm_num [AnchorsStore.get_record, lookupRec, AccountAnchors.fresh])

/-- Claim C4, counterexample: `set_starting_balance` does not reject a
nonpositive balance — on an unset record the value -100 is written and no
error is raised (the embedding is a total function with no error path,
exactly as the Python method raises nothing). -/
theorem claim_C4_counterexample :
    ((AccountAnchors.fresh 1).set_starting_balance (-100)).starting_balance =
      -100 := by
  norm_num [AccountAnchors.set_starting_balance, AccountAnchors.fresh]

/-- Claim C4 (amended): `set_starting_balance` performs no validation of
the balance: on a record whose starting balance is unset (0), *any*
balance — including a nonpositive one — is written, and no error is ever
raised; on an already-set record the call is a silent no-op. -/
theorem claim_C4_amended (a : AccountAnchors) (b : ℚ)
    (h : a.starting_balance = 0) :
    (a.set_starting_balance b).starting_balance = b := by
  rw [AccountAnchors.set_starting_balance, if_pos h]

/-- Witness for claim C4 (amended) at a concrete input: a fresh record
accepts the nonpositive balance -100. -/
theorem claim_C4_witness :
    ((AccountAnchors.fresh 2).set_starting_balance (-100)).starting_balance =
      -100 :=
  claim_C4_amended (AccountAnchors.fresh 2) (-100) rfl

/-- Claim C5, counterexample: `update_eod_high_anchor` only ever raises
the anchor above its initial 0, so after the single-candidate sequence
[-5] the stored anchor is 0, not the maximum (-5) of the candidates
passed. -/
theorem claim_C5_counterexample :
    (apply_anchor_updates (AccountAnchors.fresh 1) [(-5 : ℚ)]).eod_high_anchor
      ≠ -5 := by
  rw [apply_anchor_updates_eod]
  show List.foldl max (AccountAnchors.fresh 1).eod_high_anchor [(-5 : ℚ)] ≠ -5
  simp only [AccountAnchors.fresh, List.foldl_cons, List.foldl_nil]
  rw [max_eq_left (by norm_num : (-5 : ℚ) ≤ 0)]
  norm_num

/-- Claim C5 (amended): starting from the fresh zero-valued record, after
any sequence of `raiseEodHighAnchor` calls the stored anchor equals the
`max`-fold of the candidates over the initial anchor 0 — hence the
maximum of the candidates whenever at least one of them is nonnegative,
but 0 (not the candidates' maximum) when every candidate is negative —
and the result is invariant under permutation of the call order. -/
theorem claim_C5_amended (id : Int) (cs cs' : List ℚ) (h : cs.Perm cs') :
    (apply_anchor_updates (AccountAnchors.fresh id) cs).eod_high_anchor =
        cs.foldl max 0 ∧
      (apply_anchor_updates (AccountAnchors.fresh id) cs).eod_high_anchor =
        (apply_anchor_updates (AccountAnchors.fresh id) cs').eod_high_anchor := by
  have e1 : ∀ l : List ℚ,
      (apply_anchor_updates (AccountAnchors.fresh id) l).eod_high_anchor =
        l.foldl max 0 := by
    intro l
    rw [apply_anchor_updates_eod]
    rfl
  refine ⟨e1 cs, ?_⟩
  rw [e1 cs, e1 cs']
  exact foldl_max_perm cs cs' h 0

/-- Witness for claim C5 (amended) at a concrete input: the candidate
sequences [1, 2] and [2, 1]. -/
theorem claim_C5_witness :
    (apply_anchor_updates (AccountAnchors.fresh 1)
        [(1 : ℚ), 2]).eod_high_anchor = [(1 : ℚ), 2].foldl max 0 ∧
      (apply_anchor_updates (AccountAnchors.fresh 1)
          [(1 : ℚ), 2]).eod_high_anchor =
        (apply_anchor_updates (AccountAnchors.fresh 1)
            [(2 : ℚ), 1]).eod_high_anchor :=
  claim_C5_amended 1 [1, 2] [2, 1] (List.Perm.swap 2 1 [])

/-- Claim C6, counterexample: a store holding a record with anchor 100 is
asked to raise the anchor to 50 — the in-memory record does not change,
yet the persisted document is rewritten (the save counter increments),
so the "persists only if the value actually increased" claim is false:
`AnchorsStore.update_eod_high_anchor` calls `_save_anchors`
unconditionally. -/
theorem claim_C6_counterexample :
    ((AnchorsStore.mk
        [(1, { AccountAnchors.fresh 1 with eod_high_anchor := 100 })] 0
      ).update_eod_high_anchor 1 50).saves = 1 ∧
      ((AnchorsStore.mk
          [(1, { AccountAnchors.fresh 1 with eod_high_anchor := 100 })] 0
        ).update_eod_high_anchor 1 50).get_record 1 =
        { AccountAnchors.fresh 1 with eod_high_anchor := 100 } := by
  constructor
  · rfl
  · rw [AnchorsStore.update_eod_high_anchor, get_record_modify_self]
    have hrec : (AnchorsStore.mk
        [(1, { AccountAnchors.fresh 1 with eod_high_anchor := 100 })] 0
      ).get_record 1 =
        { AccountAnchors.fresh 1 with eod_high_anchor := 100 } := rfl
    rw [hrec, AccountAnchors.update_eod_high_anchor]
    rw [if_neg (by norm_num [AccountAnchors.fresh])]

/-- Claim C6 (amended): when the candidate does not exceed the stored
anchor, the in-memory record is indeed left unchanged, but the persisted
document is still rewritten — every call to the store-level
`update_eod_high_anchor` performs exactly one save, whether or not the
anchor increased. -/
theorem claim_C6_amended (s : AnchorsStore) (id : Int) (b : ℚ)
    (h : b ≤ (s.get_record id).eod_high_anchor) :
    (s.update_eod_high_anchor id b).get_record id = s.get_record id ∧
      (s.update_eod_high_anchor id b).saves = s.saves + 1 := by
  constructor
  · rw [AnchorsStore.update_eod_high_anchor, get_record_modify_self,
      AccountAnchors.update_eod_high_anchor, if_neg (not_lt.mpr h)]
  · rfl

/-- Witness for claim C6 (amended) at a concrete input: the empty store
(so the record is fresh with anchor 0) and candidate 0. -/
theorem claim_C6_witness :
    ((AnchorsStore.mk [] 0).update_eod_high_anchor 1 0).get_record 1 =
        (AnchorsStore.mk [] 0).get_record 1 ∧
      ((AnchorsStore.mk [] 0).update_eod_high_anchor 1 0).saves = 0 + 1 :=
  claim_C6_amended (AnchorsStore.mk [] 0) 1 0 (le_refl 0)

/-- Claim C7: the MLL evaluator on startingBalance 50000, anchor 52000,
equity 49500 yields base limit 2000, floor 50000 (frozen at the starting
balance), used 2500, remaining -500, and status BLOWN. -/
theorem claim_C7 :
    (calculate_mll 1 50000 52000 49500).base_mll = 2000 ∧
      (calculate_mll 1 50000 52000 49500).floor = some 50000 ∧
      (calculate_mll 1 50000 52000 49500).used = some 2500 ∧
      (calculate_mll 1 50000 52000 49500).remaining = some (-500) ∧
      (calculate_mll 1 50000 52000 49500).status = MLLStatus.BLOWN := by
  norm_num [calculate_mll, get_base_mll, get_plan_size]

/-- Claim C8: whenever the EOD high anchor is ≤ 0, the MLL evaluator
returns status UNKNOWN with reason "missing_anchor" and absent floor,
used, remaining and pctUsed, for every starting balance and equity; the
evaluator is a total function, so no exception is possible. -/
theorem claim_C8 (id : Int) (sb anchor ce : ℚ) (h : anchor ≤ 0) :
    (calculate_mll id sb anchor ce).status = MLLStatus.UNKNOWN ∧
      (calculate_mll id sb anchor ce).reason = "missing_anchor" ∧
      (calculate_mll id sb anchor ce).floor = none ∧
      (calculate_mll id sb anchor ce).used = none ∧
      (calculate_mll id sb anchor ce).remaining = none ∧
      (calculate_mll id sb anchor ce).pct_used = none := by
  simp [calculate_mll, if_pos h]

/-- Witness for claim C8 at a concrete input: starting balance 50000,
anchor 0, equity 49000 — the spec's cold-start example. -/
theorem claim_C8_witness :
    (calculate_mll 1 50000 0 49000).status = MLLStatus.UNKNOWN ∧
      (calculate_mll 1 50000 0 49000).reason = "missing_anchor" ∧
      (calculate_mll 1 50000 0 49000).floor = none ∧
      (calculate_mll 1 50000 0 49000).used = none ∧
      (calculate_mll 1 50000 0 49000).remaining = none ∧
      (calculate_mll 1 50000 0 49000).pct_used = none :=
  claim_C8 1 50000 0 49000 (le_refl 0)

/-- Claim C9, counterexample: initializing a brand-new account with a
negative current balance leaves the anchor at 0, not at the current
balance, because `update_eod_high_anchor` only raises the anchor above
its initial 0. -/
theorem claim_C9_counterexample :
    ((init_account_anchors (AnchorsStore.mk [] 0) 1 (-100)
        50000).get_record 1).eod_high_anchor = 0 ∧
      (0 : ℚ) ≠ -100 := by
  constructor
  · rw [init_account_anchors, AnchorsStore.update_eod_high_anchor,
      get_record_modify_self, update_eod_high_anchor_eq_max]
    show max ((((AnchorsStore.mk [] 0).set_starting_balance 1
        50000).get_record 1).eod_high_anchor) (-100) = 0
    have h0 : (((AnchorsStore.mk [] 0).set_starting_balance 1
        50000).get_record 1).eod_high_anchor = 0 := by
      rw [AnchorsStore.set_starting_balance, get_record_modify_self]
      show (((AnchorsStore.mk [] 0).get_record 1).set_starting_balance
        50000).eod_high_anchor = 0
      rw [AccountAnchors.set_starting_balance]
      split <;> rfl
    rw [h0]
    exact max_eq_left (by norm_num)
  · norm_num

/-- Claim C9 (amended): `initializeAccountAnchors` on a brand-new account
(fresh zero-valued record) leaves the intraday high absent and sets the
anchor to `max(0, currentBalance)` — which equals `currentBalance`
exactly when `currentBalance ≥ 0`; a negative current balance leaves the
anchor at 0. -/
theorem claim_C9_amended (s : AnchorsStore) (id : Int) (cb sb : ℚ)
    (hfresh : s.get_record id = AccountAnchors.fresh id) (hcb : 0 ≤ cb) :
    ((init_account_anchors s id cb sb).get_record id).eod_high_anchor = cb ∧
      ((init_account_anchors s id cb sb).get_record id).intraday_high_today =
        none := by
  rw [init_account_anchors, AnchorsStore.update_eod_high_anchor,
    get_record_modify_self, update_eod_high_anchor_eq_max,
    AnchorsStore.set_starting_balance, get_record_modify_self, hfresh]
  constructor
  · show max (((AccountAnchors.fresh id).set_starting_balance
        sb).eod_high_anchor) cb = cb
    have h0 : ((AccountAnchors.fresh id).set_starting_balance
        sb).eod_high_anchor = 0 := by
      rw [AccountAnchors.set_starting_balance]
      split <;> rfl
    rw [h0]
    exact max_eq_right hcb
  · rfl

/-- Witness for claim C9 (amended) at a concrete input: the empty store,
current balance 25000, configured starting balance 50000. -/
theorem claim_C9_witness :
    ((init_account_anchors (AnchorsStore.mk [] 0) 1 25000
        50000).get_record 1).eod_high_anchor = 25000 ∧
      ((init_account_anchors (AnchorsStore.mk [] 0) 1 25000
          50000).get_record 1).intraday_high_today = none :=
  claim_C9_amended (AnchorsStore.mk [] 0) 1 25000 50000 rfl
    (by norm_num)

/-- Claim C10: writing 0.0 to an unset starting balance does not consume
the set-once permission — the record remains unset (balance still 0), and
a later `set_starting_balance` with any value (nonzero, including a
negative one) writes that value. -/
theorem claim_C10 (a : AccountAnchors) (b : ℚ)
    (h : a.starting_balance = 0) :
    (a.set_starting_balance 0).starting_balance = 0 ∧
      ((a.set_starting_balance 0).set_starting_balance b).starting_balance =
        b := by
  rw [AccountAnchors.set_starting_balance, if_pos h]
  refine ⟨rfl, ?_⟩
  rw [AccountAnchors.set_starting_balance, if_pos rfl]

/-- Witness for claim C10 at a concrete input: the fresh record, then a
second write with the (negative) value -250. -/
theorem claim_C10_witness :
    ((AccountAnchors.fresh 1).set_starting_balance 0).starting_balance = 0 ∧
      (((AccountAnchors.fresh 1).set_starting_balance
          0).set_starting_balance (-250)).starting_balance = -250 :=
  claim_C10 (AccountAnchors.fresh 1) (-250) rfl
